import Mathlib

/-!
Shallow embedding of the Arduino dual-servo sorting controller
(src/arduino.cxx).  Hardware effects (servo writes and blocking delays)
are modelled as an explicit event trace; serial output as a list of
lines; the global mutable variables as an explicit state record
threaded through the functions.
-/

namespace CircuitCycler

/-! ## Configuration constants (src/arduino.cxx lines 23-38) -/

def LEFT_POSITION : Int := 0
def RIGHT_POSITION : Int := 180
def CENTER_POSITION : Int := 90
def SERVO2_ACTIVE : Int := 90
def SERVO2_IDLE : Int := 0
def MOVE_TIME : Nat := 800
def HOLD_TIME : Nat := 600
def STEP_DELAY : Nat := 15

/-- Modulus of the statistics counters: they are `unsigned long` in the
source (src/arduino.cxx lines 52-54), a 32-bit type on the target
platform, so `x++` wraps modulo `2 ^ 32 = 4294967296`. -/
def ULONG_MOD : Nat := 4294967296

/-! ## Hardware event trace

A `write ch pos` is a call `servoCh.write(pos)`; a `delayMs ms` is a
call `delay(ms)`.  Channel 1 is the primary sorting servo, channel 2
the secondary servo. -/

inductive Ev where
  | write (ch : Nat) (pos : Int)
  | delayMs (ms : Nat)
deriving DecidableEq

/-- The stepped `for` loop of `moveServoSmoothly` (lines 210-215):
starting at `pos`, while `step > 0 ? pos <= toPos : pos >= toPos`,
write `pos`, wait `STEP_DELAY`, and advance by `step`; the source only
ever uses `step = 2` (`up = true`) or `step = -2` (`up = false`). -/
def servoSteps (ch : Nat) (pos toPos : Int) (up : Bool) : List Ev :=
  if up then
    if pos ≤ toPos then
      Ev.write ch pos :: Ev.delayMs STEP_DELAY :: servoSteps ch (pos + 2) toPos up
    else []
  else
    if toPos ≤ pos then
      Ev.write ch pos :: Ev.delayMs STEP_DELAY :: servoSteps ch (pos - 2) toPos up
    else []
termination_by (if up then toPos + 2 - pos else pos + 2 - toPos).toNat
decreasing_by
  all_goals simp_all

/-- Embeds `moveServoSmoothly(servo, fromPos, toPos)` (lines 205-220) as the
trace of hardware events it issues: nothing when `fromPos == toPos`,
otherwise the stepped loop followed by the unconditional exact final
write and the `MOVE_TIME` settle delay. -/
def moveServoSmoothly (ch : Nat) (fromPos toPos : Int) : List Ev :=
  if fromPos = toPos then []
  else
    servoSteps ch fromPos toPos (decide (fromPos < toPos)) ++
      [Ev.write ch toPos, Ev.delayMs MOVE_TIME]

/-- The commanded angle of channel `ch` after an event trace runs,
starting from commanded angle `init`: the last value written to `ch`,
or `init` if the trace writes nothing to `ch`. -/
def commandedAfter (ch : Nat) (init : Int) (evs : List Ev) : Int :=
  evs.foldl (fun c e =>
    match e with
    | Ev.write ch2 p => if ch2 = ch then p else c
    | Ev.delayMs _ => c) init

/-! ## Arduino String methods

The source manipulates Arduino `String` values with `toUpperCase()`
(uppercase every character in place) and `trim()` (remove leading and
trailing whitespace), modelled here over the character data. -/

def toUpperCase (s : String) : String := ⟨s.data.map Char.toUpper⟩

def trim (s : String) : String :=
  ⟨((s.data.dropWhile Char.isWhitespace).reverse.dropWhile Char.isWhitespace).reverse⟩

/-- Models `direction.toUpperCase(); direction.trim();` — the normalization
both `executeSortingMovement` and `processCommand` apply to their
string argument. -/
def normalize (s : String) : String := trim (toUpperCase s)

/-! ## Global mutable state (src/arduino.cxx lines 44-55)

The three statistics counters are `unsigned long`, i.e. naturals below
`ULONG_MOD`; every `++` on them in the embedding is taken modulo
`ULONG_MOD`, as 32-bit unsigned increment wraps. -/

structure SysState where
  systemReady : Bool
  currentPosition1 : Int
  currentPosition2 : Int
  totalMoves : Nat
  leftMoves : Nat
  rightMoves : Nat
  startTime : Nat
deriving DecidableEq

/-- Result of one `executeSortingMovement` call: the state on return,
the boolean return value, the hardware events issued, and the serial
lines printed. -/
structure ExecResult where
  state : SysState
  ok : Bool
  events : List Ev
  output : List String
deriving DecidableEq

/-- The `try` block of `executeSortingMovement` (src/arduino.cxx lines
163-197) for an already-validated `direction` with its `targetPosition`:
pulse the secondary servo unless re-centering, move the primary smoothly
to the target, hold, return to center when the target was not center,
idle the secondary, and bump the statistics. -/
def execValid (s : SysState) (direction : String) (targetPosition : Int) : ExecResult :=
  let ev1 : List Ev :=
    if direction ≠ "CENTER" then [Ev.write 2 SERVO2_ACTIVE, Ev.delayMs 200] else []
  let ev2 := moveServoSmoothly 1 s.currentPosition1 targetPosition
  let back : List String × List Ev × Int :=
    if targetPosition ≠ CENTER_POSITION then
      (["Returning to center position"],
       moveServoSmoothly 1 targetPosition CENTER_POSITION, CENTER_POSITION)
    else ([], [], targetPosition)
  let s' : SysState :=
    { s with currentPosition1 := back.2.2, currentPosition2 := SERVO2_IDLE,
             totalMoves := (s.totalMoves + 1) % ULONG_MOD,
             leftMoves :=
               if direction = "LEFT" then (s.leftMoves + 1) % ULONG_MOD else s.leftMoves,
             rightMoves :=
               if direction = "RIGHT" then (s.rightMoves + 1) % ULONG_MOD else s.rightMoves }
  ⟨s', true,
   ev1 ++ ev2 ++ [Ev.delayMs HOLD_TIME] ++ back.2.1 ++ [Ev.write 2 SERVO2_IDLE],
   ["Executing sorting movement: " ++ direction] ++ back.1 ++
     ["Sorting movement completed successfully"]⟩

/-- Embeds `executeSortingMovement(direction)` (src/arduino.cxx lines 137-203).
The servo writes are infallible on this platform, so the `catch (...)`
branch is unreachable and the try block always completes. -/
def executeSortingMovement (s : SysState) (direction0 : String) : ExecResult :=
  if s.systemReady = false then
    ⟨s, false, [], ["ERROR: System not ready"]⟩
  else
    let direction := normalize direction0
    if direction = "LEFT" then
      execValid s direction LEFT_POSITION
    else if direction = "RIGHT" then
      execValid s direction RIGHT_POSITION
    else if direction = "CENTER" then
      execValid s direction CENTER_POSITION
    else
      ⟨s, false, [], ["ERROR: Invalid direction - " ++ direction]⟩

/-- Result of `processCommand` (or of one `loop` iteration): state on
return, serial lines printed, hardware events issued. -/
structure CmdResult where
  state : SysState
  output : List String
  events : List Ev
deriving DecidableEq

/-- Result of `runCompleteTest`, additionally recording the directions
passed to `executeSortingMovement`, in call order. -/
structure TestResult where
  state : SysState
  output : List String
  events : List Ev
  calls : List String
deriving DecidableEq

/-- The array `String testSequence[]` of src/arduino.cxx line 272. -/
def testSequence : List String := ["CENTER", "LEFT", "CENTER", "RIGHT", "CENTER"]

/-- Embeds `runCompleteTest()` (src/arduino.cxx lines 268-281): a `for` loop
over indices `0..4` of `testSequence`, each iteration printing the
position under test, invoking `executeSortingMovement`, and then
`delay(500)`. -/
def runCompleteTest (s : SysState) : TestResult :=
  let r := (List.range 5).foldl
    (fun acc i =>
      let dir := testSequence.getD i ""
      let e := executeSortingMovement acc.state dir
      ⟨e.state,
       acc.output ++ ["Testing position: " ++ dir] ++ e.output,
       acc.events ++ e.events ++ [Ev.delayMs 500],
       acc.calls ++ [dir]⟩)
    (⟨s, ["Starting complete system test..."], [], []⟩ : TestResult)
  { r with output := r.output ++ ["Complete system test finished"] }

/-- Embeds `printSystemStatus()` (src/arduino.cxx lines 283-296).  `now` stands
for `millis()` and `freeMem` for the platform's `freeMemory()` probe;
neither is part of the embedded state. -/
def printSystemStatus (now : Nat) (freeMem : Int) (s : SysState) : List String :=
  let uptime := now - s.startTime
  ["=== ARDUINO SYSTEM STATUS ===",
   "System Ready: " ++ (if s.systemReady then "YES" else "NO"),
   "Uptime: " ++ toString (uptime / 1000) ++ " seconds",
   "Total Movements: " ++ toString s.totalMoves,
   "Left Movements: " ++ toString s.leftMoves,
   "Right Movements: " ++ toString s.rightMoves,
   "Servo 1 Position: " ++ toString s.currentPosition1,
   "Servo 2 Position: " ++ toString s.currentPosition2,
   "Free Memory: " ++ toString freeMem ++ " bytes",
   "============================"]

/-- Embeds `processCommand(command)` (src/arduino.cxx lines 226-266): normalize
the line, echo it, dispatch, and always print `READY` last. -/
def processCommand (now : Nat) (freeMem : Int) (s : SysState) (command0 : String) :
    CmdResult :=
  let command := normalize command0
  let r : CmdResult :=
    if command = "LEFT" then
      let e := executeSortingMovement s "LEFT"
      ⟨e.state,
       e.output ++ [if e.ok then "LEFT movement completed" else "ERROR: LEFT movement failed"],
       e.events⟩
    else if command = "RIGHT" then
      let e := executeSortingMovement s "RIGHT"
      ⟨e.state,
       e.output ++ [if e.ok then "RIGHT movement completed" else "ERROR: RIGHT movement failed"],
       e.events⟩
    else if command = "CENTER" then
      let e := executeSortingMovement s "CENTER"
      ⟨e.state,
       e.output ++ [if e.ok then "CENTER movement completed" else "ERROR: CENTER movement failed"],
       e.events⟩
    else if command = "TEST" then
      let t := runCompleteTest s
      ⟨t.state, t.output, t.events⟩
    else if command = "STATUS" then
      ⟨s, printSystemStatus now freeMem s, []⟩
    else
      ⟨s, ["ERROR: Unknown command - " ++ command,
           "Valid commands: LEFT, RIGHT, CENTER, TEST, STATUS"], []⟩
  ⟨r.state, ("Received command: " ++ command) :: r.output ++ ["READY"], r.events⟩

/-- One iteration of `loop()` (src/arduino.cxx lines 96-106): when no
serial line is available (`line? = none`) nothing happens; otherwise the
line read by `readStringUntil` is trimmed and passed to `processCommand`. -/
def loopIter (now : Nat) (freeMem : Int) (s : SysState) (line? : Option String) :
    CmdResult :=
  match line? with
  | none => ⟨s, [], []⟩
  | some raw => processCommand now freeMem s (trim raw)

/-- A direction token accepted by `executeSortingMovement` after
normalization. -/
def isValidDirection (d : String) : Bool :=
  normalize d = "LEFT" || normalize d = "RIGHT" || normalize d = "CENTER"

/-- Fold a list of `executeSortingMovement` calls through the state. -/
def runMoves (s : SysState) (ds : List String) : SysState :=
  ds.foldl (fun t d => (executeSortingMovement t d).state) s

/-- The global state right after a successful `setup()` with
`startTime = millis()` taken as 0: `initializeServos` wrote both servos
to their initial angles (`CENTER_POSITION`, `SERVO2_IDLE`), the caller
set `systemReady = true`, and no movement has been counted yet
(src/arduino.cxx lines 61-90 and 112-135). -/
def bootState : SysState :=
  ⟨true, CENTER_POSITION, SERVO2_IDLE, 0, 0, 0, 0⟩

/-! ## Helper lemmas -/

theorem getLast?_append_singleton {α : Type} (l : List α) (a : α) :
    (l ++ [a]).getLast? = some a := by
  induction l with
  | nil => rfl
  | cons x xs ih =>
    cases xs with
    | nil => rfl
    | cons y ys =>
      simp only [List.cons_append] at ih ⊢
      rw [List.getLast?_cons_cons]
      exact ih

theorem getLast?_cons_append_singleton {α : Type} (x : α) (l : List α) (a : α) :
    (x :: (l ++ [a])).getLast? = some a := by
  rw [← List.cons_append]
  exact getLast?_append_singleton (x :: l) a

/-- Every write event issued by the stepped loop lies between the start
position and the target (on the side the loop walks), and is on the
channel the loop was given. -/
theorem servoSteps_write_mem (ch : Nat) (pos toPos : Int) (up : Bool) (c : Nat) (p : Int)
    (h : Ev.write c p ∈ servoSteps ch pos toPos up) :
    c = ch ∧ (up = true → pos ≤ p ∧ p ≤ toPos) ∧ (up = false → toPos ≤ p ∧ p ≤ pos) := by
  revert h
  induction pos, toPos, up using servoSteps.induct ch with
  | case1 pos toPos hle ih =>
    intro h
    rw [servoSteps] at h
    simp only [if_true, if_pos hle, List.mem_cons, Ev.write.injEq, reduceCtorEq, false_or] at h
    rcases h with ⟨rfl, rfl⟩ | h
    · refine ⟨rfl, ?_, ?_⟩
      · intro _
        omega
      · intro hf
        cases hf
    · obtain ⟨hc, h1, _⟩ := ih h
      refine ⟨hc, ?_, ?_⟩
      · intro hu
        have := h1 hu
        omega
      · intro hf
        cases hf
  | case2 pos toPos hgt =>
    intro h
    rw [servoSteps] at h
    simp [hgt] at h
  | case3 pos toPos up hup hle ih =>
    simp only [Bool.not_eq_true] at hup
    subst hup
    intro h
    rw [servoSteps] at h
    simp only [Bool.false_eq_true, if_false, if_pos hle, List.mem_cons, Ev.write.injEq,
      reduceCtorEq, false_or] at h
    rcases h with ⟨rfl, rfl⟩ | h
    · refine ⟨rfl, ?_, ?_⟩
      · intro hu
        cases hu
      · intro _
        omega
    · obtain ⟨hc, _, h2⟩ := ih h
      refine ⟨hc, ?_, ?_⟩
      · intro hu
        cases hu
      · intro _
        have := h2 rfl
        omega
  | case4 pos toPos up hup hgt =>
    simp only [Bool.not_eq_true] at hup
    subst hup
    intro h
    rw [servoSteps] at h
    simp [hgt] at h

/-- When the system is not ready, `executeSortingMovement` fails
immediately: unchanged state, no hardware events, only the error line. -/
theorem exec_notReady (s : SysState) (d : String) (h : s.systemReady = false) :
    executeSortingMovement s d = ⟨s, false, [], ["ERROR: System not ready"]⟩ := by
  unfold executeSortingMovement
  rw [if_pos h]

/-- When the normalized direction is not LEFT/RIGHT/CENTER,
`executeSortingMovement` fails with the invalid-direction error:
unchanged state, no hardware events. -/
theorem exec_invalid (s : SysState) (d : String) (hready : s.systemReady = true)
    (hv : isValidDirection d = false) :
    executeSortingMovement s d =
      ⟨s, false, [], ["ERROR: Invalid direction - " ++ normalize d]⟩ := by
  unfold executeSortingMovement
  simp only [isValidDirection, Bool.or_eq_false_iff, decide_eq_false_iff_not] at hv
  rw [if_neg (by simp [hready]), if_neg hv.1.1, if_neg hv.1.2, if_neg hv.2]

/-- One successful `executeSortingMovement` call from a ready state with
a valid direction: returns `true`, preserves readiness and `startTime`,
bumps the statistics for its direction, and leaves the primary servo
tracked at center and the secondary tracked at idle. -/
theorem exec_step (s : SysState) (d : String) (hready : s.systemReady = true)
    (hv : isValidDirection d = true) :
    (executeSortingMovement s d).ok = true ∧
    (executeSortingMovement s d).state.systemReady = true ∧
    (executeSortingMovement s d).state.totalMoves = (s.totalMoves + 1) % ULONG_MOD ∧
    (executeSortingMovement s d).state.leftMoves =
      (if normalize d = "LEFT" then (s.leftMoves + 1) % ULONG_MOD else s.leftMoves) ∧
    (executeSortingMovement s d).state.rightMoves =
      (if normalize d = "RIGHT" then (s.rightMoves + 1) % ULONG_MOD else s.rightMoves) ∧
    (executeSortingMovement s d).state.currentPosition1 = CENTER_POSITION ∧
    (executeSortingMovement s d).state.currentPosition2 = SERVO2_IDLE ∧
    (executeSortingMovement s d).state.startTime = s.startTime := by
  unfold executeSortingMovement
  rw [if_neg (by simp [hready])]
  simp only [isValidDirection, Bool.or_eq_true, decide_eq_true_eq] at hv
  rcases hv with (h | h) | h <;>
    rw [h] <;>
    simp [execValid, hready, LEFT_POSITION, RIGHT_POSITION, CENTER_POSITION, SERVO2_IDLE]

/-- Across any `executeSortingMovement` call, successful or not, each
statistics counter is either left untouched or replaced by its wrapping
increment `(x + 1) % ULONG_MOD` — the only two things `++` or skipping
`++` can do. -/
theorem exec_counter_cases (s : SysState) (d : String) :
    ((executeSortingMovement s d).state.totalMoves = s.totalMoves ∨
      (executeSortingMovement s d).state.totalMoves = (s.totalMoves + 1) % ULONG_MOD) ∧
    ((executeSortingMovement s d).state.leftMoves = s.leftMoves ∨
      (executeSortingMovement s d).state.leftMoves = (s.leftMoves + 1) % ULONG_MOD) ∧
    ((executeSortingMovement s d).state.rightMoves = s.rightMoves ∨
      (executeSortingMovement s d).state.rightMoves = (s.rightMoves + 1) % ULONG_MOD) := by
  by_cases hr : s.systemReady = true
  · by_cases hv : isValidDirection d = true
    · obtain ⟨-, -, h1, h2, h3, -⟩ := exec_step s d hr hv
      refine ⟨Or.inr h1, ?_, ?_⟩
      · rw [h2]
        split_ifs
        · right
          rfl
        · left
          rfl
      · rw [h3]
        split_ifs
        · right
          rfl
        · left
          rfl
    · rw [exec_invalid s d hr (by simpa using hv)]
      exact ⟨Or.inl rfl, Or.inl rfl, Or.inl rfl⟩
  · rw [exec_notReady s d (by simpa using hr)]
    exact ⟨Or.inl rfl, Or.inl rfl, Or.inl rfl⟩

/-- Among directions that all normalize to LEFT, RIGHT or CENTER, the
three per-token counts partition the list. -/
theorem valid_counts (ds : List String) (h : ∀ d ∈ ds, isValidDirection d = true) :
    ds.countP (fun d => decide (normalize d = "LEFT")) +
      ds.countP (fun d => decide (normalize d = "RIGHT")) +
      ds.countP (fun d => decide (normalize d = "CENTER")) = ds.length := by
  induction ds with
  | nil => rfl
  | cons d ds ih =>
    have hd := h d (by simp)
    have hrest := ih (fun x hx => h x (by simp [hx]))
    simp only [isValidDirection, Bool.or_eq_true, decide_eq_true_eq] at hd
    simp only [List.countP_cons, List.length_cons]
    rcases hd with (hL | hR) | hC
    · simp only [hL]
      simp
      omega
    · simp only [hR]
      simp
      omega
    · simp only [hC]
      simp
      omega

/-- Folding any all-valid direction list from a ready state whose
counters are in range accumulates the counters modulo `ULONG_MOD`: one
`totalMoves` per call, one `leftMoves` per LEFT, one `rightMoves` per
RIGHT, each wrapping at `ULONG_MOD`. -/
theorem runMoves_stats (ds : List String) : ∀ s : SysState, s.systemReady = true →
    s.totalMoves < ULONG_MOD → s.leftMoves < ULONG_MOD → s.rightMoves < ULONG_MOD →
    (∀ d ∈ ds, isValidDirection d = true) →
    (runMoves s ds).systemReady = true ∧
    (runMoves s ds).totalMoves = (s.totalMoves + ds.length) % ULONG_MOD ∧
    (runMoves s ds).leftMoves =
      (s.leftMoves + ds.countP (fun d => decide (normalize d = "LEFT"))) % ULONG_MOD ∧
    (runMoves s ds).rightMoves =
      (s.rightMoves + ds.countP (fun d => decide (normalize d = "RIGHT"))) % ULONG_MOD := by
  induction ds with
  | nil =>
    intro s hs h1 h2 h3 _
    refine ⟨hs, ?_, ?_, ?_⟩ <;> simp [runMoves, ULONG_MOD] at * <;> omega
  | cons d ds ih =>
    intro s hs h1 h2 h3 hall
    have hv : isValidDirection d = true := hall d (by simp)
    obtain ⟨-, hready2, htot, hleft, hright, -, -, -⟩ := exec_step s d hs hv
    have hmod : 0 < ULONG_MOD := by decide
    have h1' : (executeSortingMovement s d).state.totalMoves < ULONG_MOD := by
      rw [htot]
      exact Nat.mod_lt _ hmod
    have h2' : (executeSortingMovement s d).state.leftMoves < ULONG_MOD := by
      rw [hleft]
      split_ifs
      · exact Nat.mod_lt _ hmod
      · exact h2
    have h3' : (executeSortingMovement s d).state.rightMoves < ULONG_MOD := by
      rw [hright]
      split_ifs
      · exact Nat.mod_lt _ hmod
      · exact h3
    have hrec := ih (executeSortingMovement s d).state hready2 h1' h2' h3'
      (fun x hx => hall x (by simp [hx]))
    have hfold : runMoves s (d :: ds) = runMoves (executeSortingMovement s d).state ds := by
      simp [runMoves]
    rw [hfold]
    refine ⟨hrec.1, ?_, ?_, ?_⟩
    · rw [hrec.2.1, htot, List.length_cons]
      simp only [ULONG_MOD] at *
      omega
    · rw [hrec.2.2.1, hleft, List.countP_cons]
      by_cases hL : normalize d = "LEFT"
      · simp [hL]
        simp only [ULONG_MOD] at *
        omega
      · simp [hL]
    · rw [hrec.2.2.2, hright, List.countP_cons]
      by_cases hR : normalize d = "RIGHT"
      · simp [hR]
        simp only [ULONG_MOD] at *
        omega
      · simp [hR]

/-! ## Claim theorems -/

/-- Claim C9: `moveServoSmoothly(channel, a, a)` issues no hardware
events at all — no servo writes and no delays — for every channel and
every angle `a`. -/
theorem c9_equal_endpoints_noop (ch : Nat) (a : Int) :
    moveServoSmoothly ch a a = [] := by
  simp [moveServoSmoothly]

/-- Claim C1: for every channel and all angles `a`, `b` in `[0,180]`,
after `moveServoSmoothly(channel, a, b)` the channel's commanded angle
(the last value written to it, starting from `a`) is exactly `b`. -/
theorem c1_move_ends_at_target (ch : Nat) (a b : Int)
    (_ha0 : 0 ≤ a) (_ha1 : a ≤ 180) (_hb0 : 0 ≤ b) (_hb1 : b ≤ 180) :
    commandedAfter ch a (moveServoSmoothly ch a b) = b := by
  unfold moveServoSmoothly
  by_cases hab : a = b
  · rw [if_pos hab]
    exact hab
  · rw [if_neg hab]
    unfold commandedAfter
    rw [List.foldl_append]
    simp

theorem c1_move_ends_at_target_witness :
    (0 : Int) ≤ 0 ∧ (0 : Int) ≤ 180 ∧ (0 : Int) ≤ 5 ∧ (5 : Int) ≤ 180 ∧
      commandedAfter 1 0 (moveServoSmoothly 1 0 5) = 5 :=
  ⟨by decide, by decide, by decide, by decide,
   c1_move_ends_at_target 1 0 5 (by decide) (by decide) (by decide) (by decide)⟩

/-- Claim C10: for `fromPos`, `toPos` in `[0,180]`, every angle written
to the servo during `moveServoSmoothly(channel, fromPos, toPos)` —
intermediate stepped writes and the final write — lies in the closed
interval `[min fromPos toPos, max fromPos toPos]`, and in particular
never leaves `[0,180]`. -/
theorem c10_no_overshoot (ch : Nat) (fromPos toPos : Int)
    (hf0 : 0 ≤ fromPos) (hf1 : fromPos ≤ 180) (ht0 : 0 ≤ toPos) (ht1 : toPos ≤ 180)
    (c : Nat) (p : Int) (h : Ev.write c p ∈ moveServoSmoothly ch fromPos toPos) :
    min fromPos toPos ≤ p ∧ p ≤ max fromPos toPos ∧ 0 ≤ p ∧ p ≤ 180 := by
  unfold moveServoSmoothly at h
  by_cases hab : fromPos = toPos
  · rw [if_pos hab] at h
    cases h
  · rw [if_neg hab] at h
    rw [List.mem_append] at h
    rcases h with h | h
    · obtain ⟨-, h1, h2⟩ := servoSteps_write_mem ch fromPos toPos _ c p h
      by_cases hlt : fromPos < toPos
      · have := h1 (by simp [hlt])
        constructor
        · omega
        constructor
        · omega
        omega
      · have := h2 (by simp [hlt])
        constructor
        · omega
        constructor
        · omega
        omega
    · simp at h
      obtain ⟨-, rfl⟩ := h
      constructor
      · omega
      constructor
      · omega
      omega

theorem c10_no_overshoot_witness :
    (0 : Int) ≤ 0 ∧ (0 : Int) ≤ 180 ∧ (0 : Int) ≤ 4 ∧ (4 : Int) ≤ 180 ∧
      Ev.write 1 2 ∈ moveServoSmoothly 1 0 4 ∧
      (min (0 : Int) 4 ≤ 2 ∧ (2 : Int) ≤ max (0 : Int) 4 ∧ (0 : Int) ≤ 2 ∧ (2 : Int) ≤ 180) :=
  ⟨by decide, by decide, by decide, by decide,
   by simp [moveServoSmoothly, servoSteps],
   c10_no_overshoot 1 0 4 (by decide) (by decide) (by decide) (by decide) 1 2
     (by simp [moveServoSmoothly, servoSteps])⟩

/-- Helper for the C2 counterexample: every element of a replicated
LEFT list is a valid direction. -/
theorem replicate_left_valid (n : Nat) :
    ∀ d ∈ List.replicate n "LEFT", isValidDirection d = true := by
  intro d hd
  rw [List.eq_of_mem_replicate hd]
  decide

/-- Helper for the C2 counterexample: a replicated LEFT list has LEFT
count equal to its length. -/
theorem countP_left_replicate (n : Nat) :
    (List.replicate n "LEFT").countP (fun d => decide (normalize d = "LEFT")) = n := by
  have hn : normalize "LEFT" = "LEFT" := by decide
  induction n with
  | zero => rfl
  | succ n ih =>
    rw [List.replicate_succ, List.countP_cons, ih, hn]
    simp

/-- Claim C2, counterexample: the statistics counters are 32-bit
`unsigned long`, so they wrap.  Starting from zero counters in a ready
state, a sequence of `ULONG_MOD = 2^32` successful LEFT calls (every
direction valid, hence every call successful) ends with
`leftMoves = 0` and `totalMoves = 0`, not `N = 2^32`; and the final call
of that sequence — itself successful — takes `leftMoves` from
`2^32 - 1` down to `0`, so a counter IS decremented. -/
theorem c2_wrap_counterexample :
    (∀ d ∈ List.replicate ULONG_MOD "LEFT", isValidDirection d = true) ∧
    (List.replicate ULONG_MOD "LEFT").countP
        (fun d => decide (normalize d = "LEFT")) = ULONG_MOD ∧
    (runMoves ⟨true, 90, 0, 0, 0, 0, 0⟩ (List.replicate ULONG_MOD "LEFT")).leftMoves = 0 ∧
    (runMoves ⟨true, 90, 0, 0, 0, 0, 0⟩ (List.replicate ULONG_MOD "LEFT")).totalMoves = 0 ∧
    (0 : Nat) ≠ ULONG_MOD ∧
    (runMoves ⟨true, 90, 0, 0, 0, 0, 0⟩
        (List.replicate (ULONG_MOD - 1) "LEFT")).leftMoves = ULONG_MOD - 1 ∧
    (executeSortingMovement
        (runMoves ⟨true, 90, 0, 0, 0, 0, 0⟩ (List.replicate (ULONG_MOD - 1) "LEFT"))
        "LEFT").ok = true ∧
    (executeSortingMovement
        (runMoves ⟨true, 90, 0, 0, 0, 0, 0⟩ (List.replicate (ULONG_MOD - 1) "LEFT"))
        "LEFT").state.leftMoves = 0 := by
  have hbig := runMoves_stats (List.replicate ULONG_MOD "LEFT")
    ⟨true, 90, 0, 0, 0, 0, 0⟩ rfl (by decide) (by decide) (by decide)
    (replicate_left_valid ULONG_MOD)
  have hpre := runMoves_stats (List.replicate (ULONG_MOD - 1) "LEFT")
    ⟨true, 90, 0, 0, 0, 0, 0⟩ rfl (by decide) (by decide) (by decide)
    (replicate_left_valid (ULONG_MOD - 1))
  have hpreleft : (runMoves ⟨true, 90, 0, 0, 0, 0, 0⟩
      (List.replicate (ULONG_MOD - 1) "LEFT")).leftMoves = ULONG_MOD - 1 := by
    rw [hpre.2.2.1, countP_left_replicate]
    simp only [ULONG_MOD]
  obtain ⟨-, -, -, hleft, -, -, -, -⟩ := exec_step
    (runMoves ⟨true, 90, 0, 0, 0, 0, 0⟩ (List.replicate (ULONG_MOD - 1) "LEFT")) "LEFT"
    hpre.1 (by decide)
  refine ⟨replicate_left_valid ULONG_MOD, countP_left_replicate ULONG_MOD, ?_, ?_,
    by decide, hpreleft, ?_, ?_⟩
  · rw [hbig.2.2.1, countP_left_replicate]
    simp only [ULONG_MOD]
  · rw [hbig.2.1, List.length_replicate]
    simp only [ULONG_MOD]
  · exact (exec_step
      (runMoves ⟨true, 90, 0, 0, 0, 0, 0⟩ (List.replicate (ULONG_MOD - 1) "LEFT")) "LEFT"
      hpre.1 (by decide)).1
  · rw [hleft, if_pos (by decide), hpreleft]
    simp only [ULONG_MOD]

/-- Claim C2, amended: the counters are 32-bit `unsigned long`, so all
equalities hold modulo `ULONG_MOD = 2^32`.  Starting from zero counters
in a ready state, any interleaved sequence of valid (hence successful)
`executeSortingMovement` calls with N LEFT, M RIGHT and K CENTER
directions ends with `totalMoves = (N+M+K) % 2^32`,
`leftMoves = N % 2^32`, `rightMoves = M % 2^32` (so the claim's exact
equalities hold while the counts stay below `2^32`); every valid call
from a ready state succeeds; a successful CENTER call increments
`totalMoves` (mod `2^32`) and leaves `leftMoves` and `rightMoves`
untouched; and an in-range counter is never decremented except by the
wrap from `2^32 - 1` to `0`. -/
theorem c2_statistics_amended (ds : List String) (p1 p2 : Int) (st : Nat)
    (h : ∀ d ∈ ds, isValidDirection d = true) :
    (runMoves ⟨true, p1, p2, 0, 0, 0, st⟩ ds).totalMoves =
      (ds.countP (fun d => decide (normalize d = "LEFT")) +
        ds.countP (fun d => decide (normalize d = "RIGHT")) +
        ds.countP (fun d => decide (normalize d = "CENTER"))) % ULONG_MOD ∧
    (runMoves ⟨true, p1, p2, 0, 0, 0, st⟩ ds).leftMoves =
      ds.countP (fun d => decide (normalize d = "LEFT")) % ULONG_MOD ∧
    (runMoves ⟨true, p1, p2, 0, 0, 0, st⟩ ds).rightMoves =
      ds.countP (fun d => decide (normalize d = "RIGHT")) % ULONG_MOD ∧
    (∀ (t : SysState) (d : String), t.systemReady = true → isValidDirection d = true →
      (executeSortingMovement t d).ok = true) ∧
    (∀ t : SysState, t.systemReady = true →
      (executeSortingMovement t "CENTER").state.totalMoves =
        (t.totalMoves + 1) % ULONG_MOD ∧
      (executeSortingMovement t "CENTER").state.leftMoves = t.leftMoves ∧
      (executeSortingMovement t "CENTER").state.rightMoves = t.rightMoves) ∧
    (∀ (t : SysState) (d : String), t.totalMoves < ULONG_MOD →
      t.totalMoves ≤ (executeSortingMovement t d).state.totalMoves ∨
        (t.totalMoves = ULONG_MOD - 1 ∧
          (executeSortingMovement t d).state.totalMoves = 0)) ∧
    (∀ (t : SysState) (d : String), t.leftMoves < ULONG_MOD →
      t.leftMoves ≤ (executeSortingMovement t d).state.leftMoves ∨
        (t.leftMoves = ULONG_MOD - 1 ∧
          (executeSortingMovement t d).state.leftMoves = 0)) ∧
    (∀ (t : SysState) (d : String), t.rightMoves < ULONG_MOD →
      t.rightMoves ≤ (executeSortingMovement t d).state.rightMoves ∨
        (t.rightMoves = ULONG_MOD - 1 ∧
          (executeSortingMovement t d).state.rightMoves = 0)) := by
  obtain ⟨-, htot, hleft, hright⟩ := runMoves_stats ds ⟨true, p1, p2, 0, 0, 0, st⟩ rfl
    (by show (0 : Nat) < ULONG_MOD; decide) (by show (0 : Nat) < ULONG_MOD; decide)
    (by show (0 : Nat) < ULONG_MOD; decide) h
  refine ⟨?_, ?_, ?_, ?_, ?_, ?_, ?_, ?_⟩
  · rw [htot, ← valid_counts ds h]
    simp
  · rw [hleft]
    simp
  · rw [hright]
    simp
  · intro t d ht hvd
    exact (exec_step t d ht hvd).1
  · intro t ht
    obtain ⟨-, -, h1, h2, h3, -⟩ := exec_step t "CENTER" ht (by decide)
    exact ⟨h1, by rw [h2, if_neg (by decide)], by rw [h3, if_neg (by decide)]⟩
  · intro t d hlt
    rcases (exec_counter_cases t d).1 with he | he
    · rw [he]
      exact Or.inl (le_refl _)
    · rw [he]
      simp only [ULONG_MOD] at *
      omega
  · intro t d hlt
    rcases (exec_counter_cases t d).2.1 with he | he
    · rw [he]
      exact Or.inl (le_refl _)
    · rw [he]
      simp only [ULONG_MOD] at *
      omega
  · intro t d hlt
    rcases (exec_counter_cases t d).2.2 with he | he
    · rw [he]
      exact Or.inl (le_refl _)
    · rw [he]
      simp only [ULONG_MOD] at *
      omega

theorem c2_statistics_amended_witness :
    (∀ d ∈ (["left", "RIGHT", "center"] : List String), isValidDirection d = true) ∧
    ((runMoves ⟨true, 90, 0, 0, 0, 0, 0⟩ ["left", "RIGHT", "center"]).totalMoves =
      ((["left", "RIGHT", "center"] : List String).countP
          (fun d => decide (normalize d = "LEFT")) +
        (["left", "RIGHT", "center"] : List String).countP
          (fun d => decide (normalize d = "RIGHT")) +
        (["left", "RIGHT", "center"] : List String).countP
          (fun d => decide (normalize d = "CENTER"))) % ULONG_MOD ∧
     (runMoves ⟨true, 90, 0, 0, 0, 0, 0⟩ ["left", "RIGHT", "center"]).leftMoves =
      (["left", "RIGHT", "center"] : List String).countP
        (fun d => decide (normalize d = "LEFT")) % ULONG_MOD ∧
     (runMoves ⟨true, 90, 0, 0, 0, 0, 0⟩ ["left", "RIGHT", "center"]).rightMoves =
      (["left", "RIGHT", "center"] : List String).countP
        (fun d => decide (normalize d = "RIGHT")) % ULONG_MOD ∧
     (∀ (t : SysState) (d : String), t.systemReady = true → isValidDirection d = true →
       (executeSortingMovement t d).ok = true) ∧
     (∀ t : SysState, t.systemReady = true →
       (executeSortingMovement t "CENTER").state.totalMoves =
         (t.totalMoves + 1) % ULONG_MOD ∧
       (executeSortingMovement t "CENTER").state.leftMoves = t.leftMoves ∧
       (executeSortingMovement t "CENTER").state.rightMoves = t.rightMoves) ∧
     (∀ (t : SysState) (d : String), t.totalMoves < ULONG_MOD →
       t.totalMoves ≤ (executeSortingMovement t d).state.totalMoves ∨
         (t.totalMoves = ULONG_MOD - 1 ∧
           (executeSortingMovement t d).state.totalMoves = 0)) ∧
     (∀ (t : SysState) (d : String), t.leftMoves < ULONG_MOD →
       t.leftMoves ≤ (executeSortingMovement t d).state.leftMoves ∨
         (t.leftMoves = ULONG_MOD - 1 ∧
           (executeSortingMovement t d).state.leftMoves = 0)) ∧
     (∀ (t : SysState) (d : String), t.rightMoves < ULONG_MOD →
       t.rightMoves ≤ (executeSortingMovement t d).state.rightMoves ∨
         (t.rightMoves = ULONG_MOD - 1 ∧
           (executeSortingMovement t d).state.rightMoves = 0))) :=
  ⟨by decide, c2_statistics_amended ["left", "RIGHT", "center"] 90 0 0 (by decide)⟩
/-- Claim C3: `executeSortingMovement` returns `false` with no hardware
event and with the state — statistics, tracked angles, readiness,
`startTime` — exactly as before the call, both when the system is not
ready and when the case-folded, trimmed direction token is not one of
LEFT, RIGHT, CENTER. -/
theorem c3_error_cases_no_effect (s : SysState) (d : String) :
    (s.systemReady = false →
      executeSortingMovement s d = ⟨s, false, [], ["ERROR: System not ready"]⟩) ∧
    (s.systemReady = true → isValidDirection d = false →
      executeSortingMovement s d =
        ⟨s, false, [], ["ERROR: Invalid direction - " ++ normalize d]⟩) :=
  ⟨exec_notReady s d, exec_invalid s d⟩

theorem c3_error_cases_no_effect_witness :
    executeSortingMovement ⟨false, 90, 0, 0, 0, 0, 0⟩ "LEFT" =
      ⟨⟨false, 90, 0, 0, 0, 0, 0⟩, false, [], ["ERROR: System not ready"]⟩ ∧
    executeSortingMovement bootState "FOO" =
      ⟨bootState, false, [], ["ERROR: Invalid direction - FOO"]⟩ :=
  ⟨(c3_error_cases_no_effect ⟨false, 90, 0, 0, 0, 0, 0⟩ "LEFT").1 (by decide),
   ((c3_error_cases_no_effect bootState "FOO").2 (by decide) (by decide)).trans (by decide)⟩

/-- Claim C5: for every direction accepted from a ready state, a
successful `executeSortingMovement` call leaves the primary channel's
tracked angle at the center angle (90) and the secondary channel's
tracked angle at its idle angle (0). -/
theorem c5_returns_to_center (s : SysState) (d : String)
    (hready : s.systemReady = true)
    (hok : (executeSortingMovement s d).ok = true) :
    (executeSortingMovement s d).state.currentPosition1 = CENTER_POSITION ∧
    (executeSortingMovement s d).state.currentPosition2 = SERVO2_IDLE := by
  by_cases hv : isValidDirection d = true
  · obtain ⟨-, -, -, -, -, h1, h2, -⟩ := exec_step s d hready hv
    exact ⟨h1, h2⟩
  · rw [exec_invalid s d hready (by simpa using hv)] at hok
    cases hok

theorem c5_returns_to_center_witness :
    bootState.systemReady = true ∧
    (executeSortingMovement bootState "LEFT").ok = true ∧
    ((executeSortingMovement bootState "LEFT").state.currentPosition1 = CENTER_POSITION ∧
     (executeSortingMovement bootState "LEFT").state.currentPosition2 = SERVO2_IDLE) :=
  ⟨by decide, by decide, c5_returns_to_center bootState "LEFT" (by decide) (by decide)⟩

/-- Claim C4: every call to `processCommand`, whatever dispatch branch
it takes, emits the readiness line `"READY"` as the final line of its
response. -/
theorem c4_ready_always_last (now : Nat) (freeMem : Int) (s : SysState) (cmd : String) :
    (processCommand now freeMem s cmd).output.getLast? = some "READY" := by
  simp only [processCommand]
  exact getLast?_cons_append_singleton _ _ _

/-- Claim C6, counterexample: an input line that is empty after
trimming is NOT skipped silently — the control loop sees bytes
available, reads the empty line, and `processCommand` emits the
unknown-command response, so processing it produces output lines. -/
theorem c6_empty_line_counterexample :
    (loopIter 0 0 bootState (some "")).output ≠ [] := by
  decide

/-- Claim C6, amended: a loop iteration with no input available emits
nothing; but a line that is empty after trimming is processed as an
unknown command, emitting the command echo, the unknown-command error,
the valid-command list and the readiness line, with no state change and
no hardware action. -/
theorem c6_empty_line_amended (now : Nat) (fm : Int) (s : SysState) (raw : String)
    (h : trim raw = "") :
    loopIter now fm s none = ⟨s, [], []⟩ ∧
    (loopIter now fm s (some raw)).state = s ∧
    (loopIter now fm s (some raw)).events = [] ∧
    (loopIter now fm s (some raw)).output =
      ["Received command: ", "ERROR: Unknown command - ",
       "Valid commands: LEFT, RIGHT, CENTER, TEST, STATUS", "READY"] := by
  have hn : normalize "" = "" := by decide
  refine ⟨rfl, ?_, ?_, ?_⟩ <;>
    simp [loopIter, h, processCommand, hn]

theorem c6_empty_line_amended_witness :
    trim "  " = "" ∧
    (loopIter 0 0 bootState (some "  ")).state = bootState ∧
    (loopIter 0 0 bootState (some "  ")).events = [] ∧
    (loopIter 0 0 bootState (some "  ")).output =
      ["Received command: ", "ERROR: Unknown command - ",
       "Valid commands: LEFT, RIGHT, CENTER, TEST, STATUS", "READY"] :=
  ⟨by decide,
   (c6_empty_line_amended 0 0 bootState "  " (by decide)).2.1,
   (c6_empty_line_amended 0 0 bootState "  " (by decide)).2.2.1,
   (c6_empty_line_amended 0 0 bootState "  " (by decide)).2.2.2⟩

/-- Claim C7: while the system is not ready, the movement commands
LEFT/RIGHT/CENTER and the TEST command are rejected — state unchanged,
no servo writes (TEST issues only its five diagnostic pauses), with the
not-ready error reported — while STATUS still prints the full status
report. -/
theorem c7_not_ready_gating (now : Nat) (fm : Int) (s : SysState)
    (h : s.systemReady = false) :
    ((processCommand now fm s "TEST").state = s ∧
     (processCommand now fm s "TEST").events =
       [Ev.delayMs 500, Ev.delayMs 500, Ev.delayMs 500, Ev.delayMs 500, Ev.delayMs 500] ∧
     "ERROR: System not ready" ∈ (processCommand now fm s "TEST").output) ∧
    ((processCommand now fm s "STATUS").state = s ∧
     (processCommand now fm s "STATUS").events = [] ∧
     (processCommand now fm s "STATUS").output =
       "Received command: STATUS" :: (printSystemStatus now fm s ++ ["READY"])) ∧
    ((processCommand now fm s "LEFT").state = s ∧
     (processCommand now fm s "LEFT").events = [] ∧
     "ERROR: System not ready" ∈ (processCommand now fm s "LEFT").output ∧
     "ERROR: LEFT movement failed" ∈ (processCommand now fm s "LEFT").output) ∧
    ((processCommand now fm s "RIGHT").state = s ∧
     (processCommand now fm s "RIGHT").events = [] ∧
     "ERROR: System not ready" ∈ (processCommand now fm s "RIGHT").output ∧
     "ERROR: RIGHT movement failed" ∈ (processCommand now fm s "RIGHT").output) ∧
    ((processCommand now fm s "CENTER").state = s ∧
     (processCommand now fm s "CENTER").events = [] ∧
     "ERROR: System not ready" ∈ (processCommand now fm s "CENTER").output ∧
     "ERROR: CENTER movement failed" ∈ (processCommand now fm s "CENTER").output) := by
  have hr : List.range 5 = [0, 1, 2, 3, 4] := rfl
  have hT : normalize "TEST" = "TEST" := by decide
  have hS : normalize "STATUS" = "STATUS" := by decide
  have hL : normalize "LEFT" = "LEFT" := by decide
  have hR : normalize "RIGHT" = "RIGHT" := by decide
  have hC : normalize "CENTER" = "CENTER" := by decide
  refine ⟨⟨?_, ?_, ?_⟩, ⟨?_, ?_, ?_⟩, ⟨?_, ?_, ?_, ?_⟩, ⟨?_, ?_, ?_, ?_⟩,
    ⟨?_, ?_, ?_, ?_⟩⟩ <;>
    simp [processCommand, runCompleteTest, hr, testSequence, exec_notReady, h,
      hT, hS, hL, hR, hC]

theorem c7_not_ready_gating_witness :
    (⟨false, 90, 0, 0, 0, 0, 0⟩ : SysState).systemReady = false ∧
    ((processCommand 0 0 ⟨false, 90, 0, 0, 0, 0, 0⟩ "TEST").state =
        ⟨false, 90, 0, 0, 0, 0, 0⟩ ∧
     (processCommand 0 0 ⟨false, 90, 0, 0, 0, 0, 0⟩ "TEST").events =
       [Ev.delayMs 500, Ev.delayMs 500, Ev.delayMs 500, Ev.delayMs 500, Ev.delayMs 500] ∧
     "ERROR: System not ready" ∈
       (processCommand 0 0 ⟨false, 90, 0, 0, 0, 0, 0⟩ "TEST").output) :=
  ⟨rfl, (c7_not_ready_gating 0 0 ⟨false, 90, 0, 0, 0, 0, 0⟩ rfl).1⟩

/-- Claim C8: processing TEST runs the choreography exactly 5 times in
the order CENTER, LEFT, CENTER, RIGHT, CENTER — never aborting early,
whatever each invocation does — and the event trace is precisely the
five invocations' traces, each followed by the fixed 500 ms diagnostic
pause. -/
theorem c8_test_sequence (s : SysState) :
    (runCompleteTest s).calls = ["CENTER", "LEFT", "CENTER", "RIGHT", "CENTER"] ∧
    (runCompleteTest s).events =
      (executeSortingMovement (runMoves s []) "CENTER").events ++ [Ev.delayMs 500] ++
      (executeSortingMovement (runMoves s ["CENTER"]) "LEFT").events ++ [Ev.delayMs 500] ++
      (executeSortingMovement (runMoves s ["CENTER", "LEFT"]) "CENTER").events ++
        [Ev.delayMs 500] ++
      (executeSortingMovement (runMoves s ["CENTER", "LEFT", "CENTER"]) "RIGHT").events ++
        [Ev.delayMs 500] ++
      (executeSortingMovement (runMoves s ["CENTER", "LEFT", "CENTER", "RIGHT"])
          "CENTER").events ++ [Ev.delayMs 500] ∧
    (runCompleteTest s).state = runMoves s testSequence := by
  have hr : List.range 5 = [0, 1, 2, 3, 4] := rfl
  refine ⟨?_, ?_, ?_⟩ <;>
    simp [runCompleteTest, hr, testSequence, runMoves, List.append_assoc]

end CircuitCycler
